import Mathlib

/-!
Shallow embedding of the derived-metrics functions of the Sardis Lake
dashboard (flood impact, boat-ramp status, fishing activity index,
moon phase, recreation rating), with theorems checking the spec's claims.

JavaScript numbers are modelled as exact rationals (ℚ); `Math.round`,
`Math.floor`, the truncating `%` operator and `toFixed` are modelled
explicitly below.  Dates are modelled by the elapsed time, in days, since
the reference new-moon epoch (2000-01-06 18:14) that both moon-phase
functions measure from; the Date→milliseconds conversion they apply first
is linear and total and is folded into that parameter.
-/

namespace SardisLake

/-- JavaScript truncation toward zero (the integer part used by the `%`
operator). -/
def jsTrunc (q : ℚ) : ℤ := if 0 ≤ q then ⌊q⌋ else ⌈q⌉

/-- JavaScript remainder operator `a % b`: truncated division remainder,
which keeps the sign of the dividend `a`. -/
def jsMod (a b : ℚ) : ℚ := a - b * (jsTrunc (a / b) : ℚ)

/-- JavaScript `Math.round`: round half toward positive infinity. -/
def jsRound (q : ℚ) : ℤ := ⌊q + 1 / 2⌋

/-- The synodic month length used by both moon-phase functions, in days. -/
def synodicMonth : ℚ := 29.53058867

/-- Moon phase name and illumination percent (the emoji icon field of the
source records is omitted; it is in one-to-one correspondence with the
phase name). -/
structure MoonInfo where
  phase : String
  illumination : ℤ
deriving DecidableEq

/-- Lunar-day value of `getMoonPhase` (FishActivityIndex):
`lunations = days / 29.53058867; lunarDay = (lunations % 1) * 29.53058867`.
The naive `%` keeps the sign of `days`, so this is negative before the
epoch. -/
def getMoonPhase_lunarDay (days : ℚ) : ℚ :=
  jsMod (days / synodicMonth) 1 * synodicMonth

/-- Lunar-day value of `getMoonData` (RecreationPlanner):
`((diff_days % P) + P) % P`, normalized into `[0, P)`. -/
def getMoonData_lunarDay (days : ℚ) : ℚ :=
  jsMod (jsMod days synodicMonth + synodicMonth) synodicMonth

/-- The eight-bucket phase table of `getMoonPhase`, with its fixed
illumination percentages. -/
def moonBucketFishing (lunarDay : ℚ) : MoonInfo :=
  if lunarDay < 1.85 then ⟨"New Moon", 0⟩
  else if lunarDay < 5.53 then ⟨"Waxing Crescent", 25⟩
  else if lunarDay < 9.22 then ⟨"First Quarter", 50⟩
  else if lunarDay < 12.91 then ⟨"Waxing Gibbous", 75⟩
  else if lunarDay < 16.61 then ⟨"Full Moon", 100⟩
  else if lunarDay < 20.30 then ⟨"Waning Gibbous", 75⟩
  else if lunarDay < 23.99 then ⟨"Last Quarter", 50⟩
  else if lunarDay < 27.68 then ⟨"Waning Crescent", 25⟩
  else ⟨"New Moon", 0⟩

/-- The eight-bucket phase table of `getMoonData`, with its linearly
interpolated illumination percentages. -/
def moonBucketPlanner (lunarDay : ℚ) : MoonInfo :=
  if lunarDay < 1.85 then ⟨"New Moon", 0⟩
  else if lunarDay < 5.53 then ⟨"Waxing Crescent", jsRound ((lunarDay - 1.85) / 3.68 * 25)⟩
  else if lunarDay < 9.22 then ⟨"First Quarter", 50⟩
  else if lunarDay < 12.91 then ⟨"Waxing Gibbous", 50 + jsRound ((lunarDay - 9.22) / 3.69 * 25)⟩
  else if lunarDay < 16.61 then ⟨"Full Moon", 100⟩
  else if lunarDay < 20.30 then ⟨"Waning Gibbous", 100 - jsRound ((lunarDay - 16.61) / 3.69 * 25)⟩
  else if lunarDay < 23.99 then ⟨"Last Quarter", 50⟩
  else if lunarDay < 27.68 then ⟨"Waning Crescent", 50 - jsRound ((lunarDay - 23.99) / 3.69 * 25)⟩
  else ⟨"New Moon", 0⟩

/-- `getMoonPhase` of FishActivityIndex (src/unnamed/part_003), as a
function of elapsed days since the 2000-01-06 18:14 reference new moon. -/
def getMoonPhase (days : ℚ) : MoonInfo :=
  moonBucketFishing (getMoonPhase_lunarDay days)

/-- `getMoonData` of RecreationPlanner (WeatherWidget.tsx), as a function
of elapsed days since the 2000-01-06 18:14 reference new moon. -/
def getMoonData (days : ℚ) : MoonInfo :=
  moonBucketPlanner (getMoonData_lunarDay days)

/- Properties of the JavaScript remainder, via `Int.fract`. -/

theorem jsMod_of_nonneg {a b : ℚ} (hb : 0 < b) (ha : 0 ≤ a) :
    jsMod a b = b * Int.fract (a / b) := by
  have hq : 0 ≤ a / b := div_nonneg ha hb.le
  have : jsTrunc (a / b) = ⌊a / b⌋ := by simp [jsTrunc, hq]
  rw [jsMod, this, Int.fract, mul_sub, mul_div_cancel₀ a hb.ne']

theorem jsMod_of_neg {a b : ℚ} (hb : 0 < b) (ha : a < 0) :
    jsMod a b = -(b * Int.fract (-(a / b))) := by
  have hq : a / b < 0 := div_neg_of_neg_of_pos ha hb
  have ht : jsTrunc (a / b) = -⌊-(a / b)⌋ := by
    simp [jsTrunc, not_le.mpr hq, ← Int.ceil_neg]
  rw [jsMod, ht, Int.fract, mul_sub]
  push_cast
  have : b * -(a / b) = -a := by
    field_simp
    ring
  linarith [this]

/-- The doubly-reduced form `((a % b) + b) % b` equals the true
(floor-convention) modulus `b * fract (a / b)`. -/
theorem jsMod_norm_eq_fract {a b : ℚ} (hb : 0 < b) :
    jsMod (jsMod a b + b) b = b * Int.fract (a / b) := by
  rcases le_or_lt 0 a with ha | ha
  · have h1 : jsMod a b = b * Int.fract (a / b) := jsMod_of_nonneg hb ha
    have hnn : 0 ≤ jsMod a b := h1 ▸ mul_nonneg hb.le (Int.fract_nonneg _)
    have h2 : jsMod (jsMod a b + b) b
        = b * Int.fract ((jsMod a b + b) / b) :=
      jsMod_of_nonneg hb (by linarith)
    rw [h2, h1]
    have : (b * Int.fract (a / b) + b) / b = Int.fract (a / b) + 1 := by
      field_simp
      ring
    rw [this]
    rw [show (1 : ℚ) = ((1 : ℤ) : ℚ) by norm_cast, Int.fract_add_int,
      Int.fract_fract]
  · have h1 : jsMod a b = -(b * Int.fract (-(a / b))) := jsMod_of_neg hb ha
    set y := Int.fract (-(a / b)) with hy
    have hy0 : 0 ≤ y := Int.fract_nonneg _
    have hy1 : y < 1 := Int.fract_lt_one _
    have hpos : 0 ≤ jsMod a b + b := by
      rw [h1]
      nlinarith
    have h2 : jsMod (jsMod a b + b) b
        = b * Int.fract ((jsMod a b + b) / b) := jsMod_of_nonneg hb hpos
    rw [h2, h1]
    have harg : (-(b * y) + b) / b = -y + 1 := by
      field_simp
      ring
    rw [harg]
    have h4 : Int.fract (-y + (1 : ℤ)) = Int.fract (-y) := by
      have := Int.fract_add_int (-y) 1
      simp at this
      simp [this]
    rw [show ((1 : ℤ) : ℚ) = (1 : ℚ) by norm_cast] at h4
    rw [h4]
    rcases eq_or_lt_of_le hy0 with hzero | hpos'
    · have hfz : Int.fract (a / b) = 0 := by
        have : Int.fract (-(a / b)) = 0 := hzero.symm
        exact Int.fract_neg_eq_zero.mp this
      rw [← hzero, hfz]
      simp
    · have hyy : Int.fract y = y := Int.fract_eq_self.mpr ⟨hy0, hy1⟩
      have hne : Int.fract y ≠ 0 := by rw [hyy]; exact ne_of_gt hpos'
      have h5 : Int.fract (-y) = 1 - Int.fract y := Int.fract_neg hne
      have h6 : Int.fract (a / b) = 1 - y := by
        have hne' : Int.fract (-(a / b)) ≠ 0 := by rw [← hy]; exact ne_of_gt hpos'
        have := Int.fract_neg hne'
        rw [neg_neg] at this
        rw [this, hy]
      rw [h5, hyy, h6]

theorem synodicMonth_pos : 0 < synodicMonth := by norm_num [synodicMonth]

/-- `getMoonData`'s lunar day is the floor-convention modulus. -/
theorem getMoonData_lunarDay_eq_fract (days : ℚ) :
    getMoonData_lunarDay days
      = synodicMonth * Int.fract (days / synodicMonth) :=
  jsMod_norm_eq_fract synodicMonth_pos

/-- `getMoonData`'s lunar day always lies in `[0, synodicMonth)`. -/
theorem getMoonData_lunarDay_mem (days : ℚ) :
    0 ≤ getMoonData_lunarDay days ∧ getMoonData_lunarDay days < synodicMonth := by
  rw [getMoonData_lunarDay_eq_fract]
  constructor
  · exact mul_nonneg synodicMonth_pos.le (Int.fract_nonneg _)
  · have := Int.fract_lt_one (days / synodicMonth)
    nlinarith [synodicMonth_pos]

/-- For nonnegative elapsed days the two lunar-day computations agree. -/
theorem lunarDay_agree_of_nonneg {days : ℚ} (h : 0 ≤ days) :
    getMoonPhase_lunarDay days = getMoonData_lunarDay days := by
  rw [getMoonData_lunarDay_eq_fract, getMoonPhase_lunarDay]
  have h1 : jsMod (days / synodicMonth) 1
      = 1 * Int.fract (days / synodicMonth / 1) :=
    jsMod_of_nonneg one_pos (div_nonneg h synodicMonth_pos.le)
  rw [h1]
  ring_nf

/-- The two phase tables assign the same phase name to the same lunar day
(they differ only in the illumination interpolation). -/
theorem moonBucket_phase_agree (lunarDay : ℚ) :
    (moonBucketFishing lunarDay).phase = (moonBucketPlanner lunarDay).phase := by
  unfold moonBucketFishing moonBucketPlanner
  split_ifs <;> rfl

/-- `SARDIS_LAKE_DATA.normalPoolElevation` (src/unnamed/part_001), feet
above sea level. -/
def SARDIS_normalPoolElevation : ℚ := 599

/-- Result record of `calculateFloodImpact`; `Math.round` results are
integers, the raw difference stays rational. -/
structure FloodImpactResult where
  additionalAcres : ℤ
  impactedStructures : ℤ
  evacuationZone : ℤ
  difference : ℚ
deriving DecidableEq

/-- Body of `calculateFloodImpact` (src/unnamed/part_001, lines 112-119)
with the normal-pool elevation it reads from `SARDIS_LAKE_DATA` made an
explicit argument. -/
def floodImpactCalc (elevation normalPool : ℚ) : FloodImpactResult :=
  let difference := elevation - normalPool
  let additionalAcres := if difference > 0 then jsRound (difference * 180) else 0
  let impactedStructures := if difference > 5 then jsRound ((difference - 5) * 12) else 0
  let evacuationZone := if difference > 8 then jsRound ((difference - 8) * 0.5) else 0
  ⟨additionalAcres, impactedStructures, evacuationZone, difference⟩

/-- `calculateFloodImpact` as called in the component, against the fixed
Sardis normal pool of 599 ft. -/
def calculateFloodImpact (elevation : ℚ) : FloodImpactResult :=
  floodImpactCalc elevation SARDIS_normalPoolElevation

/-- Boat-ramp status band (`'open' | 'limited' | 'closed'`). -/
inductive RampStatus where
  | «open» | limited | closed
deriving DecidableEq

/-- The two elevation thresholds of a boat ramp that `getRampStatus`
reads; the descriptive fields of the source `BoatRamp` records (name,
coordinates, amenities, ...) are unused by the classifier and omitted. -/
structure BoatRamp where
  minElevation : ℚ
  optimalElevation : ℚ
deriving DecidableEq

/-- `diff.toFixed(1)` for the nonnegative differences formatted by
`getRampStatus`: round to one decimal and print with exactly one digit
after the point. -/
def toFixed1 (q : ℚ) : String :=
  let n : ℤ := ⌊q * 10 + 1 / 2⌋
  toString (n / 10) ++ "." ++ toString (n % 10)

/-- `getRampStatus` (WeatherWidget.tsx, lines 411-443). -/
def getRampStatus (ramp : BoatRamp) (currentElevation : ℚ) :
    RampStatus × String × List String :=
  let diff := currentElevation - ramp.minElevation
  if currentElevation ≥ ramp.optimalElevation then
    (.«open», "Fully operational - optimal conditions",
      ["All vessels", "Large boats", "Pontoons", "PWC"])
  else if currentElevation ≥ ramp.minElevation + 3 then
    (.«open», "Accessible - good conditions",
      ["Most boats", "Medium vessels", "PWC"])
  else if currentElevation ≥ ramp.minElevation then
    (.limited, "Limited access - " ++ toFixed1 diff ++ " ft above minimum",
      ["Small boats", "Kayaks", "Canoes", "PWC"])
  else
    (.closed, "Closed - water " ++ toFixed1 (|diff|) ++ " ft below minimum", [])

/-- The four recreation ratings (shared by `rateDayForRecreation` and the
fishing-conditions rating, which use the same four names). -/
inductive Rating where
  | Excellent | Good | Fair | Poor
deriving DecidableEq

/-- Input record of `rateDayForRecreation`. -/
structure RecreationDay where
  tempHigh : ℚ
  precipProbability : ℚ
  windSpeed : ℚ
  weatherCode : ℚ
deriving DecidableEq

/-- The additive score accumulated by `rateDayForRecreation`
(WeatherWidget.tsx, lines 691-722) before bucketing. -/
def recreationScore (day : RecreationDay) : ℚ :=
  let score : ℚ := 100
  let score := if day.tempHigh < 50 ∨ day.tempHigh > 95 then score - 30
    else if day.tempHigh < 60 ∨ day.tempHigh > 90 then score - 15
    else if day.tempHigh ≥ 70 ∧ day.tempHigh ≤ 85 then score + 10
    else score
  let score := if day.precipProbability > 70 then score - 40
    else if day.precipProbability > 40 then score - 20
    else if day.precipProbability > 20 then score - 10
    else score
  let score := if day.windSpeed > 25 then score - 25
    else if day.windSpeed > 15 then score - 10
    else score
  let score := if day.weatherCode ≥ 95 then score - 30
    else if day.weatherCode ≥ 61 then score - 20
    else if day.weatherCode ≤ 3 then score + 5
    else score
  score

/-- `rateDayForRecreation`: bucket the accumulated score at the
80/60/40 thresholds. -/
def rateDayForRecreation (day : RecreationDay) : Rating :=
  let score := recreationScore day
  if score ≥ 80 then .Excellent
  else if score ≥ 60 then .Good
  else if score ≥ 40 then .Fair
  else .Poor

/-- Qualitative status of one fishing factor. -/
inductive FactorStatus where
  | positive | neutral | negative
deriving DecidableEq

/-- One entry of the `factors` array (the `detail` string of the source,
pure display formatting of the same numbers, is not modelled). -/
structure Factor where
  name : String
  score : ℚ
  status : FactorStatus
deriving DecidableEq

/-- Species activity levels. -/
inductive Activity where
  | High | Moderate | Low
deriving DecidableEq

/-- One entry of the `targetSpecies` array. -/
structure TargetSpecies where
  name : String
  activity : Activity
deriving DecidableEq

/-- The fields of the Open-Meteo `current` block that
`calculateConditions` fetches. -/
structure WeatherCurrent where
  temperature_2m : ℚ
  pressure_msl : ℚ
  wind_speed_10m : ℚ
  cloud_cover : ℚ
  precipitation : ℚ
deriving DecidableEq

/-- Result record of `calculateConditions`. -/
structure FishingConditions where
  overallScore : ℤ
  rating : Rating
  factors : List Factor
  bestTime : String
  targetSpecies : List TargetSpecies
  tips : List String
deriving DecidableEq

/-- Barometric-pressure sub-score and status (pressure in inHg). -/
def pressureFactor (pressure : ℚ) : ℚ × FactorStatus :=
  if 30.0 ≤ pressure ∧ pressure ≤ 30.2 then (90, .positive)
  else if 29.8 ≤ pressure ∧ pressure < 30.0 then (75, .positive)
  else if 30.2 < pressure ∧ pressure ≤ 30.5 then (60, .neutral)
  else if pressure < 29.8 then (40, .negative)
  else (50, .neutral)

/-- Water-temperature sub-score and status (°F). -/
def waterTempFactor (waterTemp : ℚ) : ℚ × FactorStatus :=
  if 65 ≤ waterTemp ∧ waterTemp ≤ 75 then (95, .positive)
  else if 55 ≤ waterTemp ∧ waterTemp < 65 then (70, .neutral)
  else if 75 < waterTemp ∧ waterTemp ≤ 85 then (65, .neutral)
  else if waterTemp < 55 then (40, .negative)
  else (35, .negative)

/-- Wind sub-score and status (mph). -/
def windFactor (wind : ℚ) : ℚ × FactorStatus :=
  if 5 ≤ wind ∧ wind ≤ 15 then (85, .positive)
  else if wind < 5 then (60, .neutral)
  else if 15 < wind ∧ wind ≤ 25 then (55, .neutral)
  else (30, .negative)

/-- Moon-phase sub-score and status, keyed on the phase name. -/
def moonFactor (phase : String) : ℚ × FactorStatus :=
  if phase = "New Moon" ∨ phase = "Full Moon" then (90, .positive)
  else if phase = "First Quarter" ∨ phase = "Last Quarter" then (70, .neutral)
  else (55, .neutral)

/-- Cloud-cover sub-score and status (percent). -/
def cloudFactor (clouds : ℚ) : ℚ × FactorStatus :=
  if 40 ≤ clouds ∧ clouds ≤ 70 then (85, .positive)
  else if 70 < clouds then (70, .neutral)
  else (55, .neutral)

/-- `formatPeriod` of `getSolunarPeriods`: a 2-hour window as a string. -/
def formatPeriod (start : ℤ) : String :=
  let e := (start + 2) % 24
  let startStr := if start > 12 then toString (start - 12) ++ "pm"
    else if start = 0 then "12am" else toString start ++ "am"
  let endStr := if e > 12 then toString (e - 12) ++ "pm"
    else if e = 0 then "12am" else toString e ++ "am"
  startStr ++ "-" ++ endStr

/-- Major/minor solunar windows. -/
structure SolunarPeriods where
  major : List String
  minor : List String
deriving DecidableEq

/-- `getSolunarPeriods` (src/unnamed/part_003): window start hours derived
from the moon illumination percent and a fixed 6-hour offset.  (The
source also reads `date.getHours()` into a local that it never uses.) -/
def getSolunarPeriods (days : ℚ) : SolunarPeriods :=
  let moonPhase := getMoonPhase days
  let majorStart1 := (6 + ⌊(moonPhase.illumination : ℚ) / 10⌋) % 24
  let majorStart2 := (majorStart1 + 12) % 24
  let minorStart1 := (majorStart1 + 6) % 24
  let minorStart2 := (minorStart1 + 12) % 24
  ⟨[formatPeriod majorStart1, formatPeriod majorStart2],
   [formatPeriod minorStart1, formatPeriod minorStart2]⟩

/-- The tips accumulated by `calculateConditions`, in source order, with
the single default tip when no condition pushed anything. -/
def makeTips (wind waterTemp pressure : ℚ) (phase : String) (clouds : ℚ) :
    List String :=
  let tips : List String := []
  let tips := if 5 ≤ wind ∧ wind ≤ 15 then
    tips ++ ["Fish the windward shoreline where baitfish concentrate"] else tips
  let tips := if 65 ≤ waterTemp ∧ waterTemp ≤ 75 then
    tips ++ ["Topwater lures effective in early morning"] else tips
  let tips := if 29.8 ≤ pressure ∧ pressure ≤ 30.0 then
    tips ++ ["Falling pressure - fish feeding aggressively"] else tips
  let tips := if phase = "Full Moon" ∨ phase = "New Moon" then
    tips ++ ["Major solunar period - extended feeding windows"] else tips
  let tips := if 50 ≤ clouds then
    tips ++ ["Overcast conditions favor shallow water fishing"] else tips
  if tips.length = 0 then ["Fish structure and cover in deeper water"] else tips

/-- The default `FishingConditions` substituted in the `catch` branch when
the weather fetch or its JSON parse fails. -/
def defaultFishingConditions : FishingConditions :=
  { overallScore := 60
    rating := .Fair
    factors := []
    bestTime := "6am-8am"
    targetSpecies := [⟨"Largemouth Bass", .Moderate⟩, ⟨"Crappie", .Moderate⟩]
    tips := ["Check local conditions before heading out"] }

/-- `calculateConditions` (src/unnamed/part_003, lines 718-964).  The
fetch of the Open-Meteo `current` block is modelled as an `Except` input:
a raised fetch/parse error takes the `catch` branch. -/
def calculateConditions (fetchResult : Except String WeatherCurrent)
    (waterTemp days : ℚ) : FishingConditions :=
  match fetchResult with
  | .error _ => defaultFishingConditions
  | .ok current =>
    let pressure := current.pressure_msl * 0.02953
    let moonPhase := getMoonPhase days
    let solunar := getSolunarPeriods days
    let factors : List Factor :=
      [⟨"Barometric Pressure", (pressureFactor pressure).1, (pressureFactor pressure).2⟩,
       ⟨"Water Temperature", (waterTempFactor waterTemp).1, (waterTempFactor waterTemp).2⟩,
       ⟨"Wind", (windFactor current.wind_speed_10m).1, (windFactor current.wind_speed_10m).2⟩,
       ⟨"Moon Phase", (moonFactor moonPhase.phase).1, (moonFactor moonPhase.phase).2⟩,
       ⟨"Cloud Cover", (cloudFactor current.cloud_cover).1, (cloudFactor current.cloud_cover).2⟩]
    let overallScore :=
      jsRound (factors.foldl (fun sum f => sum + f.score) 0 / (factors.length : ℚ))
    let rating : Rating :=
      if overallScore ≥ 80 then .Excellent
      else if overallScore ≥ 65 then .Good
      else if overallScore ≥ 50 then .Fair
      else .Poor
    let targetSpecies : List TargetSpecies :=
      [⟨"Largemouth Bass",
        if 60 ≤ waterTemp ∧ waterTemp ≤ 80 ∧ 60 ≤ overallScore then .High
        else if 50 ≤ waterTemp ∧ waterTemp ≤ 85 then .Moderate else .Low⟩,
       ⟨"Crappie",
        if 55 ≤ waterTemp ∧ waterTemp ≤ 70 then .High
        else if 45 ≤ waterTemp ∧ waterTemp ≤ 75 then .Moderate else .Low⟩,
       ⟨"Catfish",
        if 70 ≤ waterTemp ∧ 50 ≤ current.cloud_cover then .High
        else if 60 ≤ waterTemp then .Moderate else .Low⟩,
       ⟨"Bluegill",
        if 65 ≤ waterTemp ∧ waterTemp ≤ 80 then .High
        else if 55 ≤ waterTemp then .Moderate else .Low⟩]
    let tips := makeTips current.wind_speed_10m waterTemp pressure
      moonPhase.phase current.cloud_cover
    { overallScore := overallScore
      rating := rating
      factors := factors
      bestTime := solunar.major.headD ""
      targetSpecies := targetSpecies
      tips := tips }

/-- The tips actually rendered: `conditions.tips.slice(0, 3)`
(src/unnamed/part_003, line 1100). -/
def displayedTips (conditions : FishingConditions) : List String :=
  conditions.tips.take 3

/-- The five tip-pushing threshold conditions of `calculateConditions`,
all failing. -/
def tipConditionsFail (wind waterTemp pressure : ℚ) (phase : String)
    (clouds : ℚ) : Prop :=
  ¬(5 ≤ wind ∧ wind ≤ 15) ∧ ¬(65 ≤ waterTemp ∧ waterTemp ≤ 75) ∧
  ¬(29.8 ≤ pressure ∧ pressure ≤ 30.0) ∧
  ¬(phase = "Full Moon" ∨ phase = "New Moon") ∧ ¬(50 ≤ clouds)

/- Helper lemmas for evaluating the embedded functions at concrete
rational inputs (floors of rational literals are outside the reach of
plain `norm_num`). -/

theorem floor_eq_of {q : ℚ} {z : ℤ} (h1 : (z : ℚ) ≤ q) (h2 : q < z + 1) :
    ⌊q⌋ = z := Int.floor_eq_iff.mpr ⟨h1, h2⟩

theorem jsTrunc_eq_zero {q : ℚ} (h1 : -1 < q) (h2 : q < 1) :
    jsTrunc q = 0 := by
  unfold jsTrunc
  split_ifs with h
  · exact floor_eq_of (by exact_mod_cast h) (by push_cast; linarith)
  · refine Int.ceil_eq_iff.mpr ⟨?_, ?_⟩ <;> push_cast <;> [linarith; linarith]

/-- On `(-synodicMonth, synodicMonth)` the unnormalized lunar-day
computation is the identity: a single truncated `%` does not move the
value, so pre-epoch dates keep a negative lunar day. -/
theorem getMoonPhase_lunarDay_of_small {d : ℚ}
    (h1 : -synodicMonth < d) (h2 : d < synodicMonth) :
    getMoonPhase_lunarDay d = d := by
  have hP := synodicMonth_pos
  have hb1 : -1 < d / synodicMonth / 1 := by
    rw [div_one, neg_lt, ← neg_div]
    exact (div_lt_one hP).mpr (by linarith)
  have hb2 : d / synodicMonth / 1 < 1 := by
    rw [div_one]
    exact (div_lt_one hP).mpr h2
  unfold getMoonPhase_lunarDay jsMod
  rw [jsTrunc_eq_zero hb1 hb2]
  push_cast
  field_simp

/-- On `[0, synodicMonth)` the normalized lunar-day computation is the
identity. -/
theorem getMoonData_lunarDay_of_nonneg_small {d : ℚ}
    (h1 : 0 ≤ d) (h2 : d < synodicMonth) :
    getMoonData_lunarDay d = d := by
  have hP := synodicMonth_pos
  rw [getMoonData_lunarDay_eq_fract]
  have hfr : Int.fract (d / synodicMonth) = d / synodicMonth :=
    Int.fract_eq_self.mpr ⟨div_nonneg h1 hP.le, (div_lt_one hP).mpr h2⟩
  rw [hfr, mul_div_cancel₀ d hP.ne']

/-- On `[-synodicMonth, 0)` the normalized lunar-day computation adds one
period. -/
theorem getMoonData_lunarDay_of_neg_small {d : ℚ}
    (h1 : -synodicMonth ≤ d) (h2 : d < 0) :
    getMoonData_lunarDay d = d + synodicMonth := by
  have hP := synodicMonth_pos
  rw [getMoonData_lunarDay_eq_fract]
  have hfl : ⌊d / synodicMonth⌋ = -1 := by
    refine floor_eq_of ?_ ?_
    · push_cast
      rw [neg_le, ← neg_div]
      exact (div_le_one hP).mpr (by linarith)
    · push_cast
      rw [show (-1 : ℚ) + 1 = 0 by norm_num]
      exact div_neg_of_neg_of_pos h2 hP
  rw [Int.fract, hfl]
  push_cast
  field_simp

/-- Periodicity of the normalized lunar day. -/
theorem getMoonData_lunarDay_add_period (days : ℚ) :
    getMoonData_lunarDay (days + synodicMonth) = getMoonData_lunarDay days := by
  rw [getMoonData_lunarDay_eq_fract, getMoonData_lunarDay_eq_fract]
  congr 1
  rw [add_div, div_self synodicMonth_pos.ne']
  rw [show (1 : ℚ) = ((1 : ℤ) : ℚ) by norm_cast, Int.fract_add_int]

/-- Concrete evaluation: ten days before the epoch, `getMoonPhase` reports
a (spurious) New Moon. -/
theorem getMoonPhase_at_neg10 : getMoonPhase (-10) = ⟨"New Moon", 0⟩ := by
  unfold getMoonPhase
  rw [getMoonPhase_lunarDay_of_small (by norm_num [synodicMonth])
    (by norm_num [synodicMonth])]
  unfold moonBucketFishing
  rw [if_pos (by norm_num : (-10 : ℚ) < 1.85)]

/-- Concrete evaluation: one synodic month after that date, `getMoonPhase`
reports a Waning Gibbous. -/
theorem getMoonPhase_at_neg10_plus_period :
    getMoonPhase (-10 + synodicMonth) = ⟨"Waning Gibbous", 75⟩ := by
  unfold getMoonPhase
  rw [getMoonPhase_lunarDay_of_small (by norm_num [synodicMonth])
    (by norm_num [synodicMonth])]
  unfold moonBucketFishing
  rw [if_neg (by norm_num [synodicMonth]), if_neg (by norm_num [synodicMonth]),
    if_neg (by norm_num [synodicMonth]), if_neg (by norm_num [synodicMonth]),
    if_neg (by norm_num [synodicMonth]), if_pos (by norm_num [synodicMonth])]

/-- Concrete evaluation: ten days before the epoch, the normalized
`getMoonData` reports a Waning Gibbous. -/
theorem getMoonData_phase_at_neg10 : (getMoonData (-10)).phase = "Waning Gibbous" := by
  unfold getMoonData
  rw [getMoonData_lunarDay_of_neg_small (by norm_num [synodicMonth]) (by norm_num)]
  unfold moonBucketPlanner
  rw [if_neg (by norm_num [synodicMonth]), if_neg (by norm_num [synodicMonth]),
    if_neg (by norm_num [synodicMonth]), if_neg (by norm_num [synodicMonth]),
    if_neg (by norm_num [synodicMonth]), if_pos (by norm_num [synodicMonth])]

/-- Concrete evaluation: seven days after the epoch is a First Quarter. -/
theorem getMoonPhase_phase_at_7 : (getMoonPhase 7).phase = "First Quarter" := by
  unfold getMoonPhase
  rw [getMoonPhase_lunarDay_of_small (by norm_num [synodicMonth])
    (by norm_num [synodicMonth])]
  unfold moonBucketFishing
  rw [if_neg (by norm_num), if_neg (by norm_num), if_pos (by norm_num)]

/-- Claim C1: the normalized lunar day of `getMoonData` always lies in
`[0, 29.53058867)`, but `getMoonPhase` does not normalize: ten days before
the reference epoch its lunar day is `-10`, a negative value outside the
claimed interval. -/
theorem moon_lunarDay_normalization :
    (∀ days : ℚ,
      0 ≤ getMoonData_lunarDay days ∧ getMoonData_lunarDay days < synodicMonth) ∧
    getMoonPhase_lunarDay (-10) = -10 ∧ getMoonPhase_lunarDay (-10) < 0 := by
  have hev : getMoonPhase_lunarDay (-10) = -10 :=
    getMoonPhase_lunarDay_of_small (by norm_num [synodicMonth])
      (by norm_num [synodicMonth])
  exact ⟨getMoonData_lunarDay_mem, hev, by rw [hev]; norm_num⟩

/-- Claim C2, counterexample: at elevation 610 over a 599 normal pool the
evacuation zone is not 1 square mile (`Math.round(1.5)` rounds up to 2). -/
theorem floodImpact_610_evacuationZone_ne_one :
    (calculateFloodImpact 610).evacuationZone ≠ 1 := by
  norm_num [calculateFloodImpact, floodImpactCalc, SARDIS_normalPoolElevation, jsRound]

/-- Claim C2 (amended): `floodImpact(610, 599)` yields difference 11,
1980 additional acres, 72 impacted structures and an evacuation zone of
2 square miles, since `Math.round` takes `(11-8)*0.5 = 1.5` up to 2. -/
theorem floodImpact_610_values : calculateFloodImpact 610 = ⟨1980, 72, 2, 11⟩ := by
  unfold calculateFloodImpact floodImpactCalc SARDIS_normalPoolElevation jsRound
  norm_num

/-- Claim C3: at or below the normal pool all three impact figures are
zero. -/
theorem floodImpact_below_normal_zero (e normalPool : ℚ) (h : e ≤ normalPool) :
    (floodImpactCalc e normalPool).additionalAcres = 0 ∧
    (floodImpactCalc e normalPool).impactedStructures = 0 ∧
    (floodImpactCalc e normalPool).evacuationZone = 0 := by
  unfold floodImpactCalc
  have h0 : ¬(e - normalPool > 0) := by linarith
  have h5 : ¬(e - normalPool > 5) := by linarith
  have h8 : ¬(e - normalPool > 8) := by linarith
  simp [h0, h5, h8]

/-- Witness for claim C3 at elevation 595 against a 599 normal pool. -/
theorem floodImpact_below_normal_zero_witness :
    (595 : ℚ) ≤ 599 ∧
    ((floodImpactCalc 595 599).additionalAcres = 0 ∧
     (floodImpactCalc 595 599).impactedStructures = 0 ∧
     (floodImpactCalc 595 599).evacuationZone = 0) :=
  ⟨by norm_num, floodImpact_below_normal_zero 595 599 (by norm_num)⟩

/-- Claim C4: the overall fishing score is the unweighted mean of the five
factor sub-scores rounded to the nearest integer (the sum of five integer
sub-scores divided by 5 never lands exactly on a half, so `Math.round`'s
half-up tie rule never fires), and the rating buckets at 80/65/50. -/
theorem fishing_overall_mean_and_rating (current : WeatherCurrent)
    (waterTemp days : ℚ) :
    (calculateConditions (Except.ok current) waterTemp days).overallScore
      = jsRound (((pressureFactor (current.pressure_msl * 0.02953)).1
          + (waterTempFactor waterTemp).1
          + (windFactor current.wind_speed_10m).1
          + (moonFactor (getMoonPhase days).phase).1
          + (cloudFactor current.cloud_cover).1) / 5) ∧
    (calculateConditions (Except.ok current) waterTemp days).rating
      = (if 80 ≤ (calculateConditions (Except.ok current) waterTemp days).overallScore
         then Rating.Excellent
         else if 65 ≤ (calculateConditions (Except.ok current) waterTemp days).overallScore
         then Rating.Good
         else if 50 ≤ (calculateConditions (Except.ok current) waterTemp days).overallScore
         then Rating.Fair
         else Rating.Poor) := by
  constructor
  · simp [calculateConditions, List.foldl]
  · simp [calculateConditions, ge_iff_le, List.foldl]

/-- Claim C5: for a ramp with minimum elevation 590 and optimal elevation
595, elevation 596 is open to all vessel classes, 592 is limited to small
craft with the 2.0 ft margin in the message, and 588 is closed with no
launchable classes and the 2.0 ft deficit in the message. -/
theorem rampStatus_threshold_cases :
    getRampStatus ⟨590, 595⟩ 596
      = (.«open», "Fully operational - optimal conditions",
         ["All vessels", "Large boats", "Pontoons", "PWC"]) ∧
    getRampStatus ⟨590, 595⟩ 592
      = (.limited, "Limited access - 2.0 ft above minimum",
         ["Small boats", "Kayaks", "Canoes", "PWC"]) ∧
    getRampStatus ⟨590, 595⟩ 588
      = (.closed, "Closed - water 2.0 ft below minimum", []) := by
  have htwo : toFixed1 2 = "2.0" := by
    unfold toFixed1
    rw [show ⌊(2 : ℚ) * 10 + 1 / 2⌋ = (20 : ℤ) from
      floor_eq_of (by norm_num) (by norm_num)]
    rfl
  refine ⟨?_, ?_, ?_⟩
  · unfold getRampStatus
    rw [if_pos (by norm_num)]
  · unfold getRampStatus
    rw [if_neg (by norm_num), if_neg (by norm_num), if_pos (by norm_num)]
    rw [show (592 : ℚ) - 590 = 2 by norm_num, htwo]
    rfl
  · unfold getRampStatus
    rw [if_neg (by norm_num), if_neg (by norm_num), if_neg (by norm_num)]
    rw [show |(588 : ℚ) - 590| = 2 by norm_num, htwo]
    rfl

/-- Claim C6: `rateDayForRecreation(78, 10, 8, 1)` accumulates the
internal score 115 (100 + 10 temperature bonus + 5 clear-sky bonus),
which exceeds 100 unclamped, and buckets to Excellent. -/
theorem recreation_78_score_115_excellent :
    recreationScore ⟨78, 10, 8, 1⟩ = 115 ∧
    (100 : ℚ) < recreationScore ⟨78, 10, 8, 1⟩ ∧
    rateDayForRecreation ⟨78, 10, 8, 1⟩ = .Excellent :=
  ⟨by norm_num [recreationScore], by norm_num [recreationScore],
   by norm_num [rateDayForRecreation, recreationScore]⟩

/-- Claim C7: a failed weather fetch takes the catch branch and returns
the fixed default conditions: score 60, rating Fair, one fallback tip. -/
theorem fishing_fallback_on_fetch_error (err : String) (waterTemp days : ℚ) :
    calculateConditions (Except.error err) waterTemp days = defaultFishingConditions ∧
    defaultFishingConditions.overallScore = 60 ∧
    defaultFishingConditions.rating = Rating.Fair ∧
    defaultFishingConditions.tips = ["Check local conditions before heading out"] :=
  ⟨rfl, rfl, rfl, rfl⟩

/-- Claim C8: the rendered tips list (`tips.slice(0, 3)`) never exceeds 3
entries, and when none of the five threshold conditions hold the generated
list is exactly the single default tip. -/
theorem fishing_tips_capped_default (current : WeatherCurrent)
    (waterTemp days : ℚ) :
    (displayedTips (calculateConditions (Except.ok current) waterTemp days)).length ≤ 3 ∧
    (tipConditionsFail current.wind_speed_10m waterTemp
        (current.pressure_msl * 0.02953) (getMoonPhase days).phase
        current.cloud_cover →
      (calculateConditions (Except.ok current) waterTemp days).tips
        = ["Fish structure and cover in deeper water"]) := by
  constructor
  · simp [displayedTips]
  · rintro ⟨h1, h2, h3, h4, h5⟩
    simp [calculateConditions, makeTips, if_neg h1, if_neg h2, if_neg h3,
      if_neg h4, if_neg h5]

/-- Witness for claim C8: high wind, warm water, high pressure, First
Quarter moon and clear skies match no tip condition, so the single default
tip is produced. -/
theorem fishing_tips_capped_default_witness :
    tipConditionsFail 20 80 (1035 * 0.02953) ((getMoonPhase 7).phase) 30 ∧
    (displayedTips (calculateConditions (Except.ok ⟨70, 1035, 20, 30, 0⟩) 80 7)).length ≤ 3 ∧
    (calculateConditions (Except.ok ⟨70, 1035, 20, 30, 0⟩) 80 7).tips
      = ["Fish structure and cover in deeper water"] := by
  have hfail : tipConditionsFail 20 80 (1035 * 0.02953) ((getMoonPhase 7).phase) 30 := by
    refine ⟨by norm_num, by norm_num, by norm_num, ?_, by norm_num⟩
    rw [getMoonPhase_phase_at_7]
    decide
  exact ⟨hfail, (fishing_tips_capped_default ⟨70, 1035, 20, 30, 0⟩ 80 7).1,
    (fishing_tips_capped_default ⟨70, 1035, 20, 30, 0⟩ 80 7).2 hfail⟩

/-- Claim C9, counterexample: `getMoonPhase` is not periodic across the
epoch: ten days before the epoch it reports New Moon, one synodic month
later Waning Gibbous. -/
theorem moonPhase_not_periodic_at_neg10 :
    getMoonPhase (-10) ≠ getMoonPhase (-10 + synodicMonth) := by
  rw [getMoonPhase_at_neg10, getMoonPhase_at_neg10_plus_period]
  decide

/-- Claim C9 (amended): the normalized `getMoonData` is periodic with
period one synodic month everywhere; the unnormalized `getMoonPhase` is
periodic on nonnegative elapsed days. -/
theorem moonPhase_periodicity :
    (∀ days : ℚ, getMoonData (days + synodicMonth) = getMoonData days) ∧
    (∀ days : ℚ, 0 ≤ days →
      getMoonPhase (days + synodicMonth) = getMoonPhase days) := by
  constructor
  · intro d
    unfold getMoonData
    rw [getMoonData_lunarDay_add_period]
  · intro d hd
    have hd' : (0 : ℚ) ≤ d + synodicMonth := by
      have := synodicMonth_pos
      linarith
    unfold getMoonPhase
    rw [lunarDay_agree_of_nonneg hd, lunarDay_agree_of_nonneg hd',
      getMoonData_lunarDay_add_period]

/-- Witness for claim C9 at day 3. -/
theorem moonPhase_periodicity_witness :
    getMoonData (3 + synodicMonth) = getMoonData 3 ∧
    ((0 : ℚ) ≤ 3 ∧ getMoonPhase (3 + synodicMonth) = getMoonPhase 3) :=
  ⟨moonPhase_periodicity.1 3, by norm_num, moonPhase_periodicity.2 3 (by norm_num)⟩

/-- Claim C10, counterexample: ten days before the epoch `getMoonPhase`
says New Moon while `getMoonData` says Waning Gibbous. -/
theorem moon_implementations_disagree_pre_epoch :
    (getMoonPhase (-10)).phase ≠ (getMoonData (-10)).phase := by
  rw [getMoonPhase_at_neg10, getMoonData_phase_at_neg10]
  decide

/-- Claim C10 (amended): for every date at or after the reference epoch
(nonnegative elapsed days) the two moon-phase implementations return the
same phase name. -/
theorem moon_phase_agree_nonneg :
    ∀ days : ℚ, 0 ≤ days → (getMoonPhase days).phase = (getMoonData days).phase := by
  intro d hd
  unfold getMoonPhase getMoonData
  rw [lunarDay_agree_of_nonneg hd]
  exact moonBucket_phase_agree _

/-- Witness for claim C10 at day 3. -/
theorem moon_phase_agree_nonneg_witness :
    (0 : ℚ) ≤ 3 ∧ (getMoonPhase 3).phase = (getMoonData 3).phase :=
  ⟨by norm_num, moon_phase_agree_nonneg 3 (by norm_num)⟩

end SardisLake
